import Mathlib

/- Verification development for the Common webhook client of the eliza
   repository.  The embedded code is the signature-validation middleware
   and event handler of packages/client-common/src/index.ts together with
   the MessageManager of its messages.ts module (identity derivation,
   response decision and orchestration).  External collaborators (HMAC,
   Date parsing, fetch, the classifier, the generator, the comment API)
   appear as explicit parameters; JavaScript-specific semantics such as
   truthiness, template-literal coercion and base64 buffer decoding are
   embedded as executable functions. -/

/-- The content_type field of an event: thread or comment. -/
inductive ContentType where
  | thread
  | comment
deriving DecidableEq, Repr

/-- The string a content type produces inside a JS template literal. -/
def contentTypeStr : ContentType → String
  | ContentType.thread => "thread"
  | ContentType.comment => "comment"

/-- A schema-valid webhook body per AgentMentionedSchema (schemas.ts).
    Option models JS optional and nullish fields. -/
structure RawEvent where
  community_id : String
  profile_name : String
  profile_url : String
  thread_title : String
  object_url : String
  object_summary : String
  content_url : Option String
  content_type : ContentType
  thread_id : Nat
  comment_id : Option Nat
  author_user_id : Nat
deriving DecidableEq, Repr

/-- AugmentedAgentMentionedSchema: a raw event plus full_object_text. -/
structure AugmentedEvent extends RawEvent where
  full_object_text : String
deriving DecidableEq, Repr

/-- JS truthiness of an optional string: null and undefined map to none
    and are falsy, and the empty string is falsy as well. -/
def jsTruthyStr : Option String → Bool
  | none => false
  | some s => !(s == "")

/-- The JS expression (a || b) for an optional number a with fallback b:
    undefined and 0 are both falsy. -/
def jsOrNat : Option Nat → Nat → Nat
  | none, d => d
  | some n, d => if n = 0 then d else n

/-- Whether pat occurs at the start of s (on character lists). -/
def listStartsWith : List Char → List Char → Bool
  | [], _ => true
  | _ :: _, [] => false
  | a :: as, b :: bs => a == b && listStartsWith as bs

/-- Whether pat occurs contiguously somewhere inside s. -/
def listHasSub (pat : List Char) : List Char → Bool
  | [] => listStartsWith pat []
  | c :: t => listStartsWith pat (c :: t) || listHasSub pat t

/-- JS String.prototype.includes. -/
def jsIncludes (s pat : String) : Bool := listHasSub pat.data s.data

/-- Worker for splitting a character list at commas. -/
def splitCommaAux (cur : List Char) : List Char → List (List Char)
  | [] => [cur.reverse]
  | c :: rest =>
    if c = ',' then cur.reverse :: splitCommaAux [] rest
    else splitCommaAux (c :: cur) rest

/-- JS String.prototype.split with a comma separator. -/
def jsSplitComma (s : String) : List String :=
  (splitCommaAux [] s.data).map String.mk

/-- JS String.prototype.substring starting at index 2. -/
def jsSubstring2 (s : String) : String := String.mk (s.data.drop 2)

/-- Value of one base64 alphabet character, none for other input. -/
def b64Val (c : Char) : Option Nat :=
  if 'A' ≤ c && c ≤ 'Z' then some (c.toNat - 65)
  else if 'a' ≤ c && c ≤ 'z' then some (c.toNat - 71)
  else if '0' ≤ c && c ≤ '9' then some (c.toNat + 4)
  else if c = '+' then some 62
  else if c = '/' then some 63
  else none

/-- The base64 sextets of a character sequence: a padding character ends
    the data and other non-alphabet characters are skipped, following the
    lenient decoding of Buffer.from with base64 encoding. -/
def b64Sextets : List Char → List Nat
  | [] => []
  | c :: rest =>
    if c = '=' then []
    else
      match b64Val c with
      | some v => v :: b64Sextets rest
      | none => b64Sextets rest

/-- Reassemble 6-bit groups into 8-bit bytes, dropping the trailing bits
    that do not fill a byte. -/
def sextetsToBytes : List Nat → List Nat
  | a :: b :: c :: d :: rest =>
    (a * 4 + b / 16) :: ((b % 16) * 16 + c / 4) :: ((c % 4) * 64 + d) ::
      sextetsToBytes rest
  | [a, b] => [a * 4 + b / 16]
  | [a, b, c] => [a * 4 + b / 16, (b % 16) * 16 + c / 4]
  | _ => []

/-- The bytes of Buffer.from(s, base64). -/
def b64Decode (s : String) : List Nat := sextetsToBytes (b64Sextets s.data)

/-- Outcome of an express middleware or handler: call next, send a
    response carrying a status and a body tag, or raise.  A raised error
    is forwarded by express-async-errors to the default error handler,
    which answers with status 500. -/
inductive MidResult where
  | next
  | response (status : Nat) (body : String)
  | thrown (message : String)
deriving DecidableEq, Repr

/-- String coercion of rawBody inside the template literal of index.ts
    line 167.  The express.json() middleware mounted at line 59 runs
    before the route-level raw parser of line 74, which therefore skips
    because the body was already consumed, so req.body is the parsed
    object; the code stores that object in rawBody at line 134, and a
    plain object interpolated into a template literal stringifies to
    [object Object] regardless of its fields. -/
def jsObjectToString (_body : RawEvent) : String := "[object Object]"

/-- The exact string _validateWebhook feeds to HMAC-SHA256 at index.ts
    lines 167-172: the header timestamp, a dot, and the JS string
    coercion of the parsed body object. -/
def signedPayload (timestamp : String) (body : RawEvent) : String :=
  timestamp ++ "." ++ jsObjectToString body

/-- Timestamp and signature extraction from the x-knock-signature header
    at index.ts lines 165-166: split on commas and take substring(2) of
    the first two parts; none models the case of a missing second part,
    where JS raises a TypeError on undefined. -/
def splitSig (sig : String) : Option (String × String) :=
  match jsSplitComma sig with
  | p0 :: p1 :: _ => some (jsSubstring2 p0, jsSubstring2 p1)
  | _ => none

/-- The freshness test of index.ts lines 181-183: parse the header
    timestamp as a JS Date (none models an invalid date, whose NaN
    comparison is false) and accept when now minus timestamp is below
    60000 ms.  The comparison is one-sided. -/
def isWithinWindow (parseDate : String → Option Int) (ts : String)
    (nowMs : Int) : Bool :=
  match parseDate ts with
  | none => false
  | some t => decide (nowMs - t < 60000)

/-- The signature-validation middleware _validateWebhook of index.ts
    lines 117-190, entered after a successful schema parse of the body.
    hmac models createHmac with sha256 followed by a base64 digest;
    parseDate models new Date(...).getTime(); signingKeys models the
    optional COMMON_WEBHOOK_SIGNING_KEYS record indexed by community id.
    timingSafeEqual raises when the two decoded buffers have different
    byte lengths, and otherwise compares their bytes. -/
def _validateWebhook (hmac : String → String → String)
    (parseDate : String → Option Int)
    (signingKeys : Option (String → Option String))
    (body : RawEvent) (sigHeader : Option String) (nowMs : Int) :
    MidResult :=
  match signingKeys with
  | none => MidResult.next
  | some keys =>
    match keys body.community_id with
    | none => MidResult.response 401 "UNAUTHORIZED_JSON"
    | some signingKey =>
      match sigHeader with
      | none => MidResult.response 401 "UNAUTHORIZED_JSON"
      | some sig =>
        match splitSig sig with
        | none => MidResult.thrown "TypeError: undefined has no substring"
        | some (timestamp, originalSignature) =>
          let a := b64Decode originalSignature
          let b := b64Decode (hmac signingKey (signedPayload timestamp body))
          if a.length = b.length then
            if a == b && isWithinWindow parseDate timestamp nowMs then
              MidResult.next
            else MidResult.response 401 "UNAUTHORIZED"
          else MidResult.thrown "ERR_CRYPTO_TIMING_SAFE_EQUAL_LENGTH"

/-- Result of the external fetch of a content_url. -/
inductive FetchResult where
  | ok (bodyText : String)
  | notOk (status : Nat)

/-- What _handleCommonEvent does before handing off to handleMessage:
    an optional early error status, the full text handed over, and the
    number of fetches performed. -/
structure NormOutcome where
  status : Option Nat
  handedText : Option String
  fetchCount : Nat
deriving DecidableEq, Repr

/-- The content selection of _handleCommonEvent (index.ts lines 196-228):
    the full text is object_summary unless content_url is truthy, in
    which case a single fetch supplies it, or a non-ok response rejects
    the event with status 400 before the message handler runs. -/
def normalizeContent (fetchFn : String → FetchResult) (e : RawEvent) :
    NormOutcome :=
  match e.content_url with
  | some u =>
    if u == "" then
      { status := none, handedText := some e.object_summary,
        fetchCount := 0 }
    else
      match fetchFn u with
      | FetchResult.ok t =>
        { status := none, handedText := some t, fetchCount := 1 }
      | FetchResult.notOk _ =>
        { status := some 400, handedText := none, fetchCount := 1 }
  | none =>
    { status := none, handedText := some e.object_summary,
      fetchCount := 0 }

/-- The content object returned by generateMessageResponse. -/
structure Content where
  text : String
  action : Option String
deriving DecidableEq, Repr

/-- The response of commonApiClient.comment.createComment. -/
structure CreateCommentResponse where
  id : Nat
  community_id : String
  thread_id : Nat
  body : String
  content_url : Option String
  created_at : Nat
deriving DecidableEq, Repr

/-- The identity triple produced by _generateMemoryIds. -/
structure MemoryIds where
  roomId : String
  userId : String
  messageId : String
deriving DecidableEq, Repr

/-- _generateMemoryIds of messages.ts lines 100-119, message branch.
    u models the stringToUuid hash, agentRuntimeId models runtime.agentId
    and commonUserId is the agent's numeric Common user id.  Template
    literals concatenate the interpolated fields with dashes, and the
    comment_id interpolation uses the JS truthy fallback. -/
def _generateMemoryIds (u : String → String) (agentRuntimeId : String)
    (commonUserId : Nat) (m : AugmentedEvent) : MemoryIds :=
  { roomId := u (m.community_id ++ "-" ++ Nat.repr m.thread_id ++ "-"
      ++ agentRuntimeId),
    userId :=
      if m.author_user_id = commonUserId then agentRuntimeId
      else u (Nat.repr m.author_user_id ++ "-" ++ agentRuntimeId),
    messageId := u (contentTypeStr m.content_type ++ "-"
      ++ Nat.repr (jsOrNat m.comment_id m.thread_id) ++ "-"
      ++ agentRuntimeId) }

/-- _generateMemoryIds of messages.ts lines 120-126, commentResponse
    branch: the reply is keyed by the new comment id and recorded under
    the canonical agent actor identity. -/
def _generateMemoryIdsRes (u : String → String) (agentRuntimeId : String)
    (r : CreateCommentResponse) : MemoryIds :=
  { roomId := u (r.community_id ++ "-" ++ Nat.repr r.thread_id ++ "-"
      ++ agentRuntimeId),
    userId := agentRuntimeId,
    messageId := u ("comment-" ++ Nat.repr r.id ++ "-" ++ agentRuntimeId) }

/-- The observable side effects of handleMessage, listed in execution
    order. -/
inductive Effect where
  | ensureConnection (userId roomId : String)
  | createMemory (id userId roomId text : String)
  | classifierCall
  | generateCall
  | dbLog
  | logError (msg : String)
  | publish (threadId : Nat) (body : String) (parentId : Option Nat)
  | processActions
  | evaluate (didRespond : Bool)
  | throw (message : String)
deriving DecidableEq, Repr

/-- External collaborators and identities handleMessage consumes:
    the stringToUuid hash u, runtime.agentId, the agent's numeric Common
    user id, and the responses of generateShouldRespond,
    generateMessageResponse and comment.createComment. -/
structure Collab where
  u : String → String
  agentRuntimeId : String
  commonUserId : Nat
  classifierResp : String
  genResult : Option Content
  commentRes : CreateCommentResponse

/-- _shouldRespond of messages.ts lines 41-72, as the effects it fires
    plus the boolean it returns: guard on self, then on the numeric-id
    mention, then consult the classifier and compare its answer with the
    literal RESPOND. -/
def _shouldRespondT (c : Collab) (m : AugmentedEvent) :
    List Effect × Bool :=
  if m.author_user_id = c.commonUserId then ([], false)
  else if jsIncludes m.full_object_text (Nat.repr c.commonUserId) = false
  then ([], false)
  else ([Effect.classifierCall], c.classifierResp == "RESPOND")

/-- The boolean result of _shouldRespond. -/
def _shouldRespond (c : Collab) (m : AugmentedEvent) : Bool :=
  (_shouldRespondT c m).2

/-- _generateResponse of messages.ts lines 74-98: call the generator;
    when it returns nothing, log the condition and return undefined,
    otherwise write the database log and return the content. -/
def _generateResponseT (c : Collab) : List Effect × Option Content :=
  match c.genResult with
  | none =>
    ([Effect.generateCall,
      Effect.logError "No response from generateMessageResponse"], none)
  | some r => ([Effect.generateCall, Effect.dbLog], some r)

/-- handleMessage of messages.ts lines 129-215 as its ordered effect
    trace: ensure the connection, record the inbound memory, decide; on a
    negative decision evaluate with false and stop; otherwise generate,
    and if the generator returned nothing the access to response.text
    raises a TypeError (modelled as a trailing throw effect); otherwise
    publish the reply with parent_id equal to the inbound comment_id,
    record the reply memory, process actions when the content carries a
    truthy action, and evaluate with true. -/
def handleMessage (c : Collab) (m : AugmentedEvent) : List Effect :=
  let ids := _generateMemoryIds c.u c.agentRuntimeId c.commonUserId m
  let pre := [Effect.ensureConnection ids.userId ids.roomId,
    Effect.createMemory ids.messageId ids.userId ids.roomId
      m.full_object_text]
  let sr := _shouldRespondT c m
  if sr.2 = false then pre ++ sr.1 ++ [Effect.evaluate false]
  else
    let gen := _generateResponseT c
    match gen.2 with
    | none =>
      pre ++ sr.1 ++ gen.1
        ++ [Effect.throw
          "TypeError: cannot read properties of undefined (reading text)"]
    | some content =>
      let resIds := _generateMemoryIdsRes c.u c.agentRuntimeId c.commentRes
      pre ++ sr.1 ++ gen.1
        ++ [Effect.publish m.thread_id content.text m.comment_id,
          Effect.createMemory resIds.messageId resIds.userId resIds.roomId
            c.commentRes.body]
        ++ (if jsTruthyStr content.action then [Effect.processActions]
          else [])
        ++ [Effect.evaluate true]

/-- Whether an effect is a publish call. -/
def isPublish : Effect → Bool
  | Effect.publish _ _ _ => true
  | _ => false

/-- Whether an effect is a conversation-memory insertion. -/
def isCreateMemory : Effect → Bool
  | Effect.createMemory _ _ _ _ => true
  | _ => false

/-- Whether an effect is a text-generation call. -/
def isGenerateCall : Effect → Bool
  | Effect.generateCall => true
  | _ => false

/-- Whether an effect is a classifier call. -/
def isClassifierCall : Effect → Bool
  | Effect.classifierCall => true
  | _ => false

/-- Number of effects of a trace matching a predicate. -/
def countEff (p : Effect → Bool) (t : List Effect) : Nat :=
  (t.filter p).length

/-- Whether a trace contains a given effect. -/
def hasEff (t : List Effect) (e : Effect) : Bool :=
  t.any (fun x => x == e)

/-- A concrete schema-valid thread event. -/
def sampleEvent : RawEvent :=
  { community_id := "c1", profile_name := "Tim", profile_url := "purl",
    thread_title := "title", object_url := "ourl",
    object_summary := "hello", content_url := none,
    content_type := ContentType.thread, thread_id := 7,
    comment_id := none, author_user_id := 42 }

/-- A second concrete event differing from sampleEvent in several
    fields. -/
def sampleEvent2 : RawEvent :=
  { sampleEvent with
    thread_id := 8,
    object_summary := "bye",
    author_user_id := 43 }

/-- The raw transmitted JSON bytes of sampleEvent, as a string. -/
def sampleRawJson : String :=
  "\x7b\"community_id\":\"c1\",\"thread_id\":7\x7d"

/-- A fixed 44-character base64 string decoding to 32 bytes, the length
    of an HMAC-SHA256 digest. -/
def hmacOut : String := String.mk (List.replicate 43 'A') ++ "="

/-- A stand-in HMAC collaborator returning a fixed 32-byte digest in
    base64, used to instantiate concrete scenarios. -/
def hmacConst : String → String → String := fun _ _ => hmacOut

/-- A signing-key record mapping every community to the same secret. -/
def keysConst : String → Option String := fun _ => some "secret"

/-- A stand-in Date parser knowing two ISO timestamps: one 60 s in the
    future of epoch 0 and one 120 s in its past. -/
def parseDateConst : String → Option Int := fun s =>
  if s == "1970-01-01T00:01:00.000Z" then some 60000
  else if s == "1969-12-31T23:58:00.000Z" then some (-120000)
  else none

/-- A header carrying the future timestamp and a signature matching what
    the code reconstructs. -/
def c2sig : String := "t=1970-01-01T00:01:00.000Z,s=" ++ hmacOut

/-- A header carrying the past timestamp and a signature matching what
    the code reconstructs. -/
def c3sigStale : String := "t=1969-12-31T23:58:00.000Z,s=" ++ hmacOut

/-- A header whose signature is a well-formed base64 string decoding to
    a single byte, hence shorter than the 32-byte digest. -/
def c3sigShort : String := "t=1970-01-01T00:01:00.000Z,s=AA=="

/-- C1.  The code signs the string coercion of the parsed body object,
    not the raw transmitted bytes: the HMAC input is the timestamp
    followed by a dot and the constant text [object Object], it is
    identical for two different bodies, and it differs from the
    timestamp-dot-rawBytes payload the claim describes whenever the raw
    transmission is not itself that constant text. -/
theorem c1_signature_payload_bug :
    signedPayload "1970-01-01T00:01:00.000Z" sampleEvent
        = "1970-01-01T00:01:00.000Z.[object Object]"
      ∧ signedPayload "1970-01-01T00:01:00.000Z" sampleEvent
        = signedPayload "1970-01-01T00:01:00.000Z" sampleEvent2
      ∧ signedPayload "1970-01-01T00:01:00.000Z" sampleEvent
        ≠ "1970-01-01T00:01:00.000Z." ++ sampleRawJson := by
  decide

/-- C2 counterexample.  A request whose header timestamp is 60 s in the
    future of the verification clock, carrying the signature the code
    itself reconstructs, is accepted (next is called), although the
    absolute clock difference is 60000 ms, at the threshold the claim
    says forces rejection in either direction. -/
theorem c2_future_timestamp_counterexample :
    _validateWebhook hmacConst parseDateConst (some keysConst) sampleEvent
        (some c2sig) 0 = MidResult.next
      ∧ parseDateConst "1970-01-01T00:01:00.000Z" = some 60000
      ∧ 60000 ≤ ((0 : Int) - 60000).natAbs := by
  decide

/-- Reduction of _validateWebhook once the tenant key is found and the
    header has split into a timestamp and a signature. -/
theorem validateWebhook_reduce (hmac : String → String → String)
    (parseDate : String → Option Int) (keys : String → Option String)
    (body : RawEvent) (sig ts s key : String) (now : Int)
    (hk : keys body.community_id = some key)
    (hs : splitSig sig = some (ts, s)) :
    _validateWebhook hmac parseDate (some keys) body (some sig) now
      = (if (b64Decode s).length
            = (b64Decode (hmac key (signedPayload ts body))).length then
          if b64Decode s == b64Decode (hmac key (signedPayload ts body))
              && isWithinWindow parseDate ts now then
            MidResult.next
          else MidResult.response 401 "UNAUTHORIZED"
        else MidResult.thrown "ERR_CRYPTO_TIMING_SAFE_EQUAL_LENGTH") := by
  unfold _validateWebhook
  simp only [hk, hs]

/-- C2 amended.  With a configured tenant key, a well-formed header and
    a signature of the digest's decoded length, the verifier accepts
    exactly when the decoded signatures agree and now minus timestamp is
    below 60000 ms: the freshness check is one-sided, so timestamps up to
    59999 ms in the past are accepted and timestamps arbitrarily far in
    the future are accepted, while timestamps 60 s or more in the past
    are rejected even with a correct signature. -/
theorem c2_one_sided_freshness (hmac : String → String → String)
    (parseDate : String → Option Int) (keys : String → Option String)
    (body : RawEvent) (sig ts s key : String) (now tsMs : Int)
    (hk : keys body.community_id = some key)
    (hs : splitSig sig = some (ts, s))
    (hlen : (b64Decode s).length
      = (b64Decode (hmac key (signedPayload ts body))).length)
    (hd : parseDate ts = some tsMs) :
    _validateWebhook hmac parseDate (some keys) body (some sig) now
        = MidResult.next
      ↔ (b64Decode s = b64Decode (hmac key (signedPayload ts body))
          ∧ now - tsMs < 60000) := by
  rw [validateWebhook_reduce hmac parseDate keys body sig ts s key now hk hs,
    if_pos hlen]
  have hw : isWithinWindow parseDate ts now = decide (now - tsMs < 60000) := by
    unfold isWithinWindow
    rw [hd]
  rw [hw]
  by_cases h1 : b64Decode s = b64Decode (hmac key (signedPayload ts body))
  · by_cases h2 : now - tsMs < 60000
    · simp [h1, h2]
    · simp [h1, h2]
  · simp [h1]

/-- Closed instance of c2_one_sided_freshness at a concrete stale-free
    configuration. -/
theorem c2_one_sided_freshness_witness :
    (_validateWebhook hmacConst parseDateConst (some keysConst) sampleEvent
        (some c2sig) 0 = MidResult.next
      ↔ (b64Decode hmacOut
          = b64Decode (hmacConst "secret"
            (signedPayload "1970-01-01T00:01:00.000Z" sampleEvent))
          ∧ (0 : Int) - 60000 < 60000)) :=
  c2_one_sided_freshness hmacConst parseDateConst keysConst sampleEvent
    c2sig "1970-01-01T00:01:00.000Z" hmacOut "secret" 0 60000
    (by decide) (by decide) (by decide) (by decide)

/-- C3 counterexample.  A schema-valid request for a configured tenant
    whose supplied signature is well-formed base64 of the wrong length
    (one byte instead of the digest's 32) makes timingSafeEqual raise
    instead of answering 401: the middleware outcome is a thrown error,
    which the express error handler turns into a 500 response, not the
    uniform 401 the claim asserts for mismatched signatures of any
    length. -/
theorem c3_length_mismatch_counterexample :
    _validateWebhook hmacConst parseDateConst (some keysConst) sampleEvent
        (some c3sigShort) 0
        = MidResult.thrown "ERR_CRYPTO_TIMING_SAFE_EQUAL_LENGTH"
      ∧ MidResult.thrown "ERR_CRYPTO_TIMING_SAFE_EQUAL_LENGTH"
        ≠ MidResult.response 401 "UNAUTHORIZED" := by
  decide

/-- C3 amended.  For a schema-valid request with a configured tenant key,
    a well-formed header, and a supplied signature whose base64 decoding
    has the digest's byte length, every verification failure, whether the
    signature is stale or its bytes mismatch, produces the one literal
    response 401 UNAUTHORIZED, revealing nothing about which check
    failed; only signatures decoding to a different length escape this
    uniform response, by raising an error that surfaces as a 500. -/
theorem c3_uniform_unauthorized (hmac : String → String → String)
    (parseDate : String → Option Int) (keys : String → Option String)
    (body : RawEvent) (sig ts s key : String) (now : Int)
    (hk : keys body.community_id = some key)
    (hs : splitSig sig = some (ts, s))
    (hlen : (b64Decode s).length
      = (b64Decode (hmac key (signedPayload ts body))).length)
    (hfail : (b64Decode s == b64Decode (hmac key (signedPayload ts body))
        && isWithinWindow parseDate ts now) = false) :
    _validateWebhook hmac parseDate (some keys) body (some sig) now
      = MidResult.response 401 "UNAUTHORIZED" := by
  rw [validateWebhook_reduce hmac parseDate keys body sig ts s key now hk hs,
    if_pos hlen]
  simp [hfail]

/-- Closed instance of c3_uniform_unauthorized: a stale request whose
    signature matches the reconstruction exactly still receives the 401
    UNAUTHORIZED response. -/
theorem c3_uniform_unauthorized_witness :
    _validateWebhook hmacConst parseDateConst (some keysConst) sampleEvent
      (some c3sigStale) 0 = MidResult.response 401 "UNAUTHORIZED" :=
  c3_uniform_unauthorized hmacConst parseDateConst keysConst sampleEvent
    c3sigStale "1969-12-31T23:58:00.000Z" hmacOut "secret" 0
    (by decide) (by decide) (by decide) (by decide)

/-- Appending strings appends their character data. -/
theorem strDataAppend (s t : String) : (s ++ t).data = s.data ++ t.data := by
  obtain ⟨a⟩ := s
  obtain ⟨b⟩ := t
  rfl

/-- No string starting with the text thread equals one starting with the
    text comment. -/
theorem threadNeComment (r1 r2 : String) :
    "thread" ++ r1 ≠ "comment" ++ r2 := by
  intro h
  have hd : ("thread" ++ r1).data = ("comment" ++ r2).data :=
    congrArg String.data h
  rw [strDataAppend, strDataAppend] at hd
  have h1 : "thread".data = ['t', 'h', 'r', 'e', 'a', 'd'] := rfl
  have h2 : "comment".data = ['c', 'o', 'm', 'm', 'e', 'n', 't'] := rfl
  rw [h1, h2] at hd
  simp at hd

/-- The spec-claimed derivation key for messageId: content_type paired
    with comment_id whenever the field is present, else thread_id.  This
    follows the claim's words and is compared against the key the code
    actually uses, which applies the JS truthy fallback instead. -/
def specMessageKey (m : AugmentedEvent) : ContentType × Nat :=
  (m.content_type,
    match m.comment_id with
    | some cid => cid
    | none => m.thread_id)

/-- A comment event with comment_id 0 on thread 7. -/
def c4EventA : AugmentedEvent :=
  { community_id := "c1", profile_name := "Tim", profile_url := "purl",
    thread_title := "title", object_url := "ourl", object_summary := "s",
    content_url := none, content_type := ContentType.comment,
    thread_id := 7, comment_id := some 0, author_user_id := 42,
    full_object_text := "s" }

/-- The same comment event moved to thread 8. -/
def c4EventB : AugmentedEvent := { c4EventA with thread_id := 8 }

/-- C4 counterexample.  Two events agreeing on content_type and on the
    claimed key component (comment_id present and equal to 0) receive
    different messageIds from the code, because the JS expression
    comment_id or thread_id treats the number 0 as falsy and falls back
    to the differing thread ids: messageId is not a function of the pair
    the claim names. -/
theorem c4_truthy_comment_id_counterexample :
    specMessageKey c4EventA = specMessageKey c4EventB
      ∧ (_generateMemoryIds (fun s => s) "A" 99 c4EventA).messageId
        ≠ (_generateMemoryIds (fun s => s) "A" 99 c4EventB).messageId := by
  decide

/-- C4 amended.  Under an injective stringToUuid: events sharing
    community_id and thread_id share their roomId; a thread-level and a
    comment-level event with equal thread_id always receive distinct
    messageIds; and messageId is a function of content_type together
    with the truthy fallback of comment_id to thread_id, so redelivery
    of the same logical message always derives the same id. -/
theorem c4_identity_derivation (u : String → String)
    (hu : Function.Injective u) (aid : String) (cuid : Nat)
    (m1 m2 m3 m4 m5 m6 : AugmentedEvent)
    (hc : m1.community_id = m2.community_id)
    (ht12 : m1.thread_id = m2.thread_id)
    (h3 : m3.content_type = ContentType.thread)
    (h4 : m4.content_type = ContentType.comment)
    (hct : m5.content_type = m6.content_type)
    (hcid : jsOrNat m5.comment_id m5.thread_id
      = jsOrNat m6.comment_id m6.thread_id) :
    (_generateMemoryIds u aid cuid m1).roomId
        = (_generateMemoryIds u aid cuid m2).roomId
      ∧ (_generateMemoryIds u aid cuid m3).messageId
        ≠ (_generateMemoryIds u aid cuid m4).messageId
      ∧ (_generateMemoryIds u aid cuid m5).messageId
        = (_generateMemoryIds u aid cuid m6).messageId := by
  refine ⟨?_, ?_, ?_⟩
  · unfold _generateMemoryIds
    rw [hc, ht12]
  · unfold _generateMemoryIds
    intro h
    have heq := hu h
    rw [h3, h4] at heq
    unfold contentTypeStr at heq
    rw [String.append_assoc, String.append_assoc,
      String.append_assoc, String.append_assoc,
      String.append_assoc, String.append_assoc] at heq
    exact threadNeComment _ _ heq
  · unfold _generateMemoryIds
    rw [hct, hcid]

/-- A concrete augmented thread event used in witnesses. -/
def wEventThread : AugmentedEvent :=
  { community_id := "c1", profile_name := "Tim", profile_url := "purl",
    thread_title := "title", object_url := "ourl",
    object_summary := "hi 99", content_url := none,
    content_type := ContentType.thread, thread_id := 7,
    comment_id := none, author_user_id := 42,
    full_object_text := "hi 99" }

/-- A concrete augmented comment event on the same thread. -/
def wEventComment : AugmentedEvent :=
  { wEventThread with
    content_type := ContentType.comment,
    comment_id := some 31 }

/-- Closed instance of c4_identity_derivation with the identity encoding
    as the injective stringToUuid stand-in. -/
theorem c4_identity_derivation_witness :
    (_generateMemoryIds (fun s => s) "A" 99 wEventThread).roomId
        = (_generateMemoryIds (fun s => s) "A" 99 wEventThread).roomId
      ∧ (_generateMemoryIds (fun s => s) "A" 99 wEventThread).messageId
        ≠ (_generateMemoryIds (fun s => s) "A" 99 wEventComment).messageId
      ∧ (_generateMemoryIds (fun s => s) "A" 99 wEventThread).messageId
        = (_generateMemoryIds (fun s => s) "A" 99 wEventThread).messageId :=
  c4_identity_derivation (fun s => s) (fun _ _ h => h) "A" 99
    wEventThread wEventThread wEventThread wEventComment
    wEventThread wEventThread rfl rfl rfl rfl rfl rfl

/-- C5.  The decision guards short-circuit in order: a self event (author
    equal to the agent's Common id) yields false and its handleMessage
    trace contains neither a generation call nor a publish call; a
    non-self event whose text lacks the mention yields false; a non-self
    mentioned event yields exactly the classifier's binary verdict,
    namely whether its answer is the literal RESPOND. -/
theorem c5_guard_order (c : Collab) (mSelf mNoM mM : AugmentedEvent)
    (h1 : mSelf.author_user_id = c.commonUserId)
    (h2a : mNoM.author_user_id ≠ c.commonUserId)
    (h2b : jsIncludes mNoM.full_object_text (Nat.repr c.commonUserId)
      = false)
    (h3a : mM.author_user_id ≠ c.commonUserId)
    (h3b : jsIncludes mM.full_object_text (Nat.repr c.commonUserId)
      = true) :
    _shouldRespond c mSelf = false
      ∧ countEff isGenerateCall (handleMessage c mSelf) = 0
      ∧ countEff isPublish (handleMessage c mSelf) = 0
      ∧ _shouldRespond c mNoM = false
      ∧ _shouldRespond c mM = (c.classifierResp == "RESPOND") := by
  refine ⟨?_, ?_, ?_, ?_, ?_⟩
  · simp [_shouldRespond, _shouldRespondT, h1]
  · simp [handleMessage, _shouldRespondT, h1, countEff, isGenerateCall,
      isPublish]
  · simp [handleMessage, _shouldRespondT, h1, countEff, isGenerateCall,
      isPublish]
  · simp [_shouldRespond, _shouldRespondT, h2a, h2b]
  · simp [_shouldRespond, _shouldRespondT, h3a, h3b]

/-- The reply returned by createComment in concrete scenarios. -/
def wCommentRes : CreateCommentResponse :=
  { id := 31, community_id := "c1", thread_id := 7, body := "reply",
    content_url := none, created_at := 5 }

/-- A concrete collaborator bundle: identity encoding for stringToUuid,
    agent runtime id A, Common user id 99, a classifier answering
    RESPOND, no generation result, and wCommentRes as the publish
    response. -/
def wCollabNoGen : Collab :=
  { u := fun s => s, agentRuntimeId := "A", commonUserId := 99,
    classifierResp := "RESPOND", genResult := none,
    commentRes := wCommentRes }

/-- The self variant of wEventThread. -/
def wEventSelf : AugmentedEvent := { wEventThread with author_user_id := 99 }

/-- A non-self event whose text never mentions the agent id. -/
def wEventNoMention : AugmentedEvent :=
  { wEventThread with full_object_text := "hi there" }

/-- Closed instance of c5_guard_order on concrete events. -/
theorem c5_guard_order_witness :
    _shouldRespond wCollabNoGen wEventSelf = false
      ∧ countEff isGenerateCall (handleMessage wCollabNoGen wEventSelf) = 0
      ∧ countEff isPublish (handleMessage wCollabNoGen wEventSelf) = 0
      ∧ _shouldRespond wCollabNoGen wEventNoMention = false
      ∧ _shouldRespond wCollabNoGen wEventThread
        = ("RESPOND" == "RESPOND") :=
  c5_guard_order wCollabNoGen wEventSelf wEventNoMention wEventThread
    rfl (by decide) (by decide) (by decide) (by decide)

/-- C10.  For a non-self author, the mention gate passes (the classifier
    is consulted) exactly when the full text contains the decimal string
    of the agent's numeric Common user id as a substring; the gate reads
    no other field, and in particular a non-self event without that
    substring always yields false no matter what profile or display name
    appears in the text. -/
theorem c10_numeric_mention_gate (c : Collab) (m mNo : AugmentedEvent)
    (h : m.author_user_id ≠ c.commonUserId)
    (hNo : mNo.author_user_id ≠ c.commonUserId)
    (hNoInc : jsIncludes mNo.full_object_text (Nat.repr c.commonUserId)
      = false) :
    (_shouldRespondT c m).1.any isClassifierCall
        = jsIncludes m.full_object_text (Nat.repr c.commonUserId)
      ∧ _shouldRespond c mNo = false := by
  constructor
  · unfold _shouldRespondT
    rw [if_neg h]
    by_cases hj : jsIncludes m.full_object_text (Nat.repr c.commonUserId)
      = false
    · rw [if_pos hj, hj]
      rfl
    · rw [if_neg hj]
      simp only [Bool.not_eq_false] at hj
      rw [hj]
      rfl
  · simp [_shouldRespond, _shouldRespondT, hNo, hNoInc]

/-- Closed instance of c10_numeric_mention_gate: the text hi 99 contains
    the digits of agent id 99 and reaches the classifier, while a text
    mentioning the agent only by name does not. -/
theorem c10_numeric_mention_gate_witness :
    (_shouldRespondT wCollabNoGen wEventThread).1.any isClassifierCall
        = jsIncludes "hi 99" (Nat.repr 99)
      ∧ _shouldRespond wCollabNoGen wEventNoMention = false :=
  c10_numeric_mention_gate wCollabNoGen wEventThread wEventNoMention
    (by decide) (by decide) (by decide)

/-- C7.  The first two effects of every handleMessage trace are the
    connection setup and the durable recording of the inbound memory
    entry derived by _generateMemoryIds, so the entry precedes all
    decision logic; and when the decision is negative the trace contains
    no publish effect yet still contains the evaluation hook invoked
    with didRespond false. -/
theorem c7_record_before_decide (c : Collab) (m mNeg : AugmentedEvent)
    (hNeg : _shouldRespond c mNeg = false) :
    (handleMessage c m).take 2
        = [Effect.ensureConnection
            (_generateMemoryIds c.u c.agentRuntimeId c.commonUserId m).userId
            (_generateMemoryIds c.u c.agentRuntimeId c.commonUserId m).roomId,
          Effect.createMemory
            (_generateMemoryIds c.u c.agentRuntimeId c.commonUserId
              m).messageId
            (_generateMemoryIds c.u c.agentRuntimeId c.commonUserId m).userId
            (_generateMemoryIds c.u c.agentRuntimeId c.commonUserId m).roomId
            m.full_object_text]
      ∧ countEff isPublish (handleMessage c mNeg) = 0
      ∧ hasEff (handleMessage c mNeg) (Effect.evaluate false) = true := by
  have hsr : (_shouldRespondT c mNeg).2 = false := hNeg
  refine ⟨?_, ?_, ?_⟩
  · unfold handleMessage
    by_cases hb : (_shouldRespondT c m).2 = false
    · rw [if_pos hb]
      rfl
    · rw [if_neg hb]
      cases hg : c.genResult
      · simp only [_generateResponseT, hg]
        rfl
      · simp only [_generateResponseT, hg]
        rfl
  · unfold handleMessage
    rw [if_pos hsr]
    unfold _shouldRespondT
    by_cases ha : mNeg.author_user_id = c.commonUserId
    · rw [if_pos ha]
      simp [countEff, isPublish]
    · rw [if_neg ha]
      by_cases hj : jsIncludes mNeg.full_object_text
          (Nat.repr c.commonUserId) = false
      · rw [if_pos hj]
        simp [countEff, isPublish]
      · rw [if_neg hj]
        simp [countEff, isPublish]
  · unfold handleMessage
    rw [if_pos hsr]
    simp [hasEff]

/-- Closed instance of c7_record_before_decide: a general event and a
    self event with a negative decision. -/
theorem c7_record_before_decide_witness :
    (handleMessage wCollabNoGen wEventThread).take 2
        = [Effect.ensureConnection
            (_generateMemoryIds (fun s => s) "A" 99 wEventThread).userId
            (_generateMemoryIds (fun s => s) "A" 99 wEventThread).roomId,
          Effect.createMemory
            (_generateMemoryIds (fun s => s) "A" 99 wEventThread).messageId
            (_generateMemoryIds (fun s => s) "A" 99 wEventThread).userId
            (_generateMemoryIds (fun s => s) "A" 99 wEventThread).roomId
            "hi 99"]
      ∧ countEff isPublish (handleMessage wCollabNoGen wEventSelf) = 0
      ∧ hasEff (handleMessage wCollabNoGen wEventSelf)
        (Effect.evaluate false) = true :=
  c7_record_before_decide wCollabNoGen wEventThread wEventSelf (by decide)

/-- C8.  When the generation collaborator returns nothing on an event
    that passed all guards, no publish effect ever occurs and the
    condition is logged, but the pipeline does not complete quietly:
    handleMessage dereferences the undefined response at response.text,
    so the trace ends in a raised TypeError (surfacing as a 500 through
    the route boundary) and the closing evaluation hook never runs,
    contradicting the claim that processing completes without raising. -/
theorem c8_generation_none_crash :
    handleMessage wCollabNoGen wEventThread =
        [Effect.ensureConnection "42-A" "c1-7-A",
          Effect.createMemory "thread-7-A" "42-A" "c1-7-A" "hi 99",
          Effect.classifierCall, Effect.generateCall,
          Effect.logError "No response from generateMessageResponse",
          Effect.throw
            "TypeError: cannot read properties of undefined (reading text)"]
      ∧ countEff isPublish (handleMessage wCollabNoGen wEventThread) = 0
      ∧ hasEff (handleMessage wCollabNoGen wEventThread)
        (Effect.logError "No response from generateMessageResponse") = true
      ∧ hasEff (handleMessage wCollabNoGen wEventThread)
        (Effect.evaluate true) = false := by
  decide

/-- The end-to-end scenario event of the claim: a thread mention reading
    hi at-agent, no content_url, author 42. -/
def c9Event : AugmentedEvent :=
  { community_id := "c1", profile_name := "Tim", profile_url := "purl",
    thread_title := "title", object_url := "ourl",
    object_summary := "hi @agent", content_url := none,
    content_type := ContentType.thread, thread_id := 7,
    comment_id := none, author_user_id := 42,
    full_object_text := "hi @agent" }

/-- A collaborator bundle whose generator succeeds with a reply text and
    no action, agent id 99, classifier answering RESPOND. -/
def c9Collab : Collab :=
  { u := fun s => s, agentRuntimeId := "A", commonUserId := 99,
    classifierResp := "RESPOND",
    genResult := some { text := "reply text", action := none },
    commentRes := wCommentRes }

/-- C9 counterexample.  On the claim's own scenario (text hi at-agent,
    author 42, agent id 99) the second guard fails, because the text does
    not contain the digits 99: the normalizer hands exactly the summary
    onward, but the decision is false, so generation is never invoked
    and no publish call occurs, contradicting the claimed single publish
    and pair of memory entries. -/
theorem c9_scenario_counterexample :
    (normalizeContent (fun _ => FetchResult.ok "unused")
        c9Event.toRawEvent).handedText = some "hi @agent"
      ∧ jsIncludes "hi @agent" (Nat.repr 99) = false
      ∧ _shouldRespond c9Collab c9Event = false
      ∧ countEff isGenerateCall (handleMessage c9Collab c9Event) = 0
      ∧ countEff isPublish (handleMessage c9Collab c9Event) = 0
      ∧ countEff isCreateMemory (handleMessage c9Collab c9Event) = 1 := by
  decide

/-- C9 amended.  For a thread event that does mention the agent's numeric
    id (for instance text hi at-99 for agent id 99), with a non-self
    author, a classifier answering RESPOND and a successful generation:
    exactly one generation call and exactly one publish call occur, the
    publish carries the inbound thread id, the generated text and an
    absent parent_id (for comment events the publish carries the
    originating comment_id instead), and exactly two memory entries are
    created, the second being the reply recorded under the canonical
    agent actor identity with ids derived by the reply branch of
    _generateMemoryIds. -/
theorem c9_end_to_end (c : Collab) (m : AugmentedEvent) (content : Content)
    (h1 : m.author_user_id ≠ c.commonUserId)
    (h2 : jsIncludes m.full_object_text (Nat.repr c.commonUserId) = true)
    (h3 : c.classifierResp = "RESPOND")
    (h4 : c.genResult = some content)
    (h5 : m.comment_id = none) :
    countEff isGenerateCall (handleMessage c m) = 1
      ∧ countEff isPublish (handleMessage c m) = 1
      ∧ hasEff (handleMessage c m)
        (Effect.publish m.thread_id content.text none) = true
      ∧ countEff isCreateMemory (handleMessage c m) = 2
      ∧ hasEff (handleMessage c m)
        (Effect.createMemory
          (_generateMemoryIdsRes c.u c.agentRuntimeId c.commentRes).messageId
          c.agentRuntimeId
          (_generateMemoryIdsRes c.u c.agentRuntimeId c.commentRes).roomId
          c.commentRes.body) = true := by
  have hsr : _shouldRespondT c m = ([Effect.classifierCall], true) := by
    unfold _shouldRespondT
    rw [if_neg h1, if_neg (by simp [h2]), h3]
    rfl
  have htr : handleMessage c m
      = [Effect.ensureConnection
          (_generateMemoryIds c.u c.agentRuntimeId c.commonUserId m).userId
          (_generateMemoryIds c.u c.agentRuntimeId c.commonUserId m).roomId,
        Effect.createMemory
          (_generateMemoryIds c.u c.agentRuntimeId c.commonUserId
            m).messageId
          (_generateMemoryIds c.u c.agentRuntimeId c.commonUserId m).userId
          (_generateMemoryIds c.u c.agentRuntimeId c.commonUserId m).roomId
          m.full_object_text]
        ++ [Effect.classifierCall] ++ [Effect.generateCall, Effect.dbLog]
        ++ [Effect.publish m.thread_id content.text m.comment_id,
          Effect.createMemory
            (_generateMemoryIdsRes c.u c.agentRuntimeId
              c.commentRes).messageId
            (_generateMemoryIdsRes c.u c.agentRuntimeId c.commentRes).userId
            (_generateMemoryIdsRes c.u c.agentRuntimeId c.commentRes).roomId
            c.commentRes.body]
        ++ (if jsTruthyStr content.action then [Effect.processActions]
          else [])
        ++ [Effect.evaluate true] := by
    unfold handleMessage
    rw [hsr]
    simp only [_generateResponseT, h4]
    rw [if_neg (show ¬(true = false) by decide)]
  rw [htr]
  by_cases ha : jsTruthyStr content.action
  · rw [if_pos ha]
    simp [countEff, hasEff, isGenerateCall, isPublish, isCreateMemory,
      _generateMemoryIdsRes, h5]
  · rw [if_neg ha]
    simp [countEff, hasEff, isGenerateCall, isPublish, isCreateMemory,
      _generateMemoryIdsRes, h5]

/-- The collaborator bundle of wCollabNoGen with a successful
    generation. -/
def wCollabGen : Collab :=
  { wCollabNoGen with
    genResult := some { text := "reply text", action := none } }

/-- Closed instance of c9_end_to_end: thread event with text hi 99,
    author 42, agent id 99, classifier RESPOND, generation succeeds. -/
theorem c9_end_to_end_witness :
    countEff isGenerateCall (handleMessage wCollabGen wEventThread) = 1
      ∧ countEff isPublish (handleMessage wCollabGen wEventThread) = 1
      ∧ hasEff (handleMessage wCollabGen wEventThread)
        (Effect.publish 7 "reply text" none) = true
      ∧ countEff isCreateMemory (handleMessage wCollabGen wEventThread) = 2
      ∧ hasEff (handleMessage wCollabGen wEventThread)
        (Effect.createMemory
          (_generateMemoryIdsRes (fun s => s) "A" wCommentRes).messageId
          "A"
          (_generateMemoryIdsRes (fun s => s) "A" wCommentRes).roomId
          "reply") = true :=
  c9_end_to_end wCollabGen wEventThread
    { text := "reply text", action := none }
    (by decide) (by decide) rfl rfl rfl

/-- A schema-valid event whose content_url is present but empty. -/
def c6EventEmptyUrl : RawEvent :=
  { sampleEvent with content_url := some "" }

/-- C6 counterexample.  An event whose content_url field is present but
    equal to the empty string performs zero fetches and hands the
    possibly truncated object_summary to the handler, although a fetch
    collaborator returning different full content is available: the code
    branches on JS truthiness, not on presence of content_url. -/
theorem c6_empty_url_counterexample :
    c6EventEmptyUrl.content_url = some ""
      ∧ (normalizeContent (fun _ => FetchResult.ok "FULL BODY")
          c6EventEmptyUrl).fetchCount = 0
      ∧ (normalizeContent (fun _ => FetchResult.ok "FULL BODY")
          c6EventEmptyUrl).handedText = some "hello"
      ∧ "hello" ≠ "FULL BODY" := by
  decide

/-- C6 amended.  For an event whose content_url is not truthy (absent,
    null or empty) the handler receives exactly object_summary with no
    fetch; for a truthy content_url exactly one fetch runs and on
    success the handler receives exactly the fetched body; on a non-ok
    fetch response the event is rejected with status 400 after that
    single fetch, and no text at all is handed onward. -/
theorem c6_normalize_content (f1 f2 f3 : String → FetchResult)
    (e1 e2 e3 : RawEvent) (u2 u3 bodyText : String) (st : Nat)
    (h1 : jsTruthyStr e1.content_url = false)
    (h2u : e2.content_url = some u2) (h2ne : u2 ≠ "")
    (h2f : f2 u2 = FetchResult.ok bodyText)
    (h3u : e3.content_url = some u3) (h3ne : u3 ≠ "")
    (h3f : f3 u3 = FetchResult.notOk st) :
    normalizeContent f1 e1
        = { status := none, handedText := some e1.object_summary,
            fetchCount := 0 }
      ∧ normalizeContent f2 e2
        = { status := none, handedText := some bodyText, fetchCount := 1 }
      ∧ normalizeContent f3 e3
        = { status := some 400, handedText := none, fetchCount := 1 } := by
  refine ⟨?_, ?_, ?_⟩
  · unfold normalizeContent
    cases hcu : e1.content_url with
    | none => rfl
    | some u =>
      rw [hcu] at h1
      simp only [jsTruthyStr, Bool.not_eq_false] at h1
      have hu : u = "" := by
        simpa using h1
      rw [hu]
      rfl
  · unfold normalizeContent
    simp only [h2u]
    rw [if_neg (show ¬((u2 == "") = true) by simpa using h2ne)]
    simp only [h2f]
  · unfold normalizeContent
    simp only [h3u]
    rw [if_neg (show ¬((u3 == "") = true) by simpa using h3ne)]
    simp only [h3f]

/-- Closed instance of c6_normalize_content on concrete events and fetch
    collaborators. -/
theorem c6_normalize_content_witness :
    normalizeContent (fun _ => FetchResult.ok "unused") sampleEvent
        = { status := none, handedText := some "hello", fetchCount := 0 }
      ∧ normalizeContent (fun _ => FetchResult.ok "FULL BODY")
          { sampleEvent with content_url := some "https://r2/full" }
        = { status := none, handedText := some "FULL BODY",
            fetchCount := 1 }
      ∧ normalizeContent (fun _ => FetchResult.notOk 404)
          { sampleEvent with content_url := some "https://r2/full" }
        = { status := some 400, handedText := none, fetchCount := 1 } :=
  c6_normalize_content (fun _ => FetchResult.ok "unused")
    (fun _ => FetchResult.ok "FULL BODY") (fun _ => FetchResult.notOk 404)
    sampleEvent
    { sampleEvent with content_url := some "https://r2/full" }
    { sampleEvent with content_url := some "https://r2/full" }
    "https://r2/full" "https://r2/full" "FULL BODY" 404
    (by decide) rfl (by decide) rfl rfl (by decide) rfl
